import Mathlib

/-!  Shallow embedding of the animation/transition interpolation layer of
`packages/expo-styling/src/runtime/native/animations.tsx` (current file) and
`packages/expo-styling/src/runtime/native/animations_old.tsx` (older file) of
the repository.

Modelling conventions:
* JavaScript numbers are modelled as rationals (`ℚ`); `NaN` is modelled as
  `Option.none` where it can arise (from `Number.parseFloat`).
* JavaScript values flowing through the style system are modelled by the
  inductive `JSVal`: numbers, strings, `undefined`, `null`, plain objects and
  arrays.  The result of a template literal of the shape
  `interpolatedNumber ++ unit` is kept symbolic in the constructor
  `JSVal.numStr` (JS number-to-string formatting is not re-modelled); the
  result of the external `interpolateColor` of `react-native-reanimated` is
  kept symbolic in the constructor `JSVal.colorInterp`.  These two
  constructors arise only as outputs of the interpolation helpers and never
  flow back into them in the modelled code paths.
* JS objects are modelled as insertion-ordered association lists
  (`List (String × JSVal)`); `Object.assign` updates an existing key in place
  and appends new keys, matching JS enumeration order for the non-numeric
  string keys that the modelled code enumerates.
* Runtime exceptions (`TypeError` from spreading a non-iterable, property
  access on `undefined`) are modelled as `Option.none` results.
* `interpolate(p, [0, 1], [a, b])` of `react-native-reanimated` (external to
  the repository) is linear interpolation with default `EXTEND`
  extrapolation: `a + p * (b - a)`; this is `lerp` below.
-/

namespace ExpoStyling

/-- JavaScript runtime values, as used by the animation code. -/
inductive JSVal where
  | num (q : ℚ)
  | str (s : String)
  | undef
  | null
  /-- The string produced by the template literal reattaching a unit to an
  interpolated number: `numStr q u` stands for the JS string obtained by
  formatting the number `q` (`Option.none` = `NaN`) followed by `u`. -/
  | numStr (q : Option ℚ) (unit : String)
  /-- Symbolic result of the external `interpolateColor(p, [0,1], [a, b])`. -/
  | colorInterp (p : ℚ) (a b : JSVal)
  | obj (fields : List (String × JSVal))
  | arr (elems : List JSVal)

/-- Linear interpolation `a + p * (b - a)`: the behaviour of reanimated's
`interpolate(p, [0, 1], [a, b])` with the default extrapolation. -/
def lerp (p a b : ℚ) : ℚ := a + p * (b - a)

/-- `lerp` lifted to `Option ℚ`, propagating `NaN` (`Option.none`) the way JS
float arithmetic does. -/
def lerpN (p : ℚ) (a b : Option ℚ) : Option ℚ :=
  match a, b with
  | some x, some y => some (lerp p x y)
  | _, _ => Option.none

/-- Characters matched by the unit regex `[a-z%]$` character class. -/
def isUnitChar (c : Char) : Bool := ('a' ≤ c && c ≤ 'z') || c = '%'

/-- `s.match(/[a-z%]+$/)?.[0]`: the maximal non-empty suffix of `s` made of
lowercase letters and `%`, or `Option.none` when there is none. -/
def unitSuffix (s : String) : Option String :=
  let u := (s.data.reverse.takeWhile isUnitChar).reverse
  if u.isEmpty then Option.none else some (String.mk u)

def isDigit (c : Char) : Bool := '0' ≤ c && c ≤ '9'

def digitsToNat (cs : List Char) : ℕ :=
  cs.foldl (fun acc c => 10 * acc + (c.toNat - '0'.toNat)) 0

/-- Modelled from the ECMAScript `Number.parseFloat` builtin (external to the
repository): skip leading whitespace, optional sign, decimal digits with an
optional fractional part; `NaN` is `Option.none`.  Exponent suffixes and
`Infinity` are not modelled (no claim depends on them). -/
def parseFloat (s : String) : Option ℚ :=
  let cs := s.data.dropWhile (fun c => c = ' ' || c = '\t' || c = '\n' || c = '\r')
  let signAndRest : ℚ × List Char :=
    match cs with
    | '-' :: r => (-1, r)
    | '+' :: r => (1, r)
    | r => (1, r)
  let intPart := signAndRest.2.takeWhile isDigit
  let rest := signAndRest.2.drop intPart.length
  let fracPart :=
    match rest with
    | '.' :: r => r.takeWhile isDigit
    | _ => []
  if intPart.isEmpty && fracPart.isEmpty then Option.none
  else some (signAndRest.1 *
    ((digitsToNat intPart : ℚ) + (digitsToNat fracPart : ℚ) / 10 ^ fracPart.length))

/-- The shared non-color branch chain of `interpolation` (animations.tsx,
lines 263-290) and `interpolateWithUnits` (animations_old.tsx, lines
234-261).  The two source functions contain the identical `else if` chain:
two numbers interpolate linearly; a string `from` paired with a string or
with the number `0` interpolates the parsed numeric portions and reattaches
`from`'s trailing unit (when `from` has no trailing unit the chain falls
through); the number `0` paired with a string `to` does the same with `to`'s
unit; everything else falls through to `return 0`. -/
def interpolationCore (p : ℚ) (a b : JSVal) : JSVal :=
  match a, b with
  | .num x, .num y => .num (lerp p x y)
  | .str s, .str t =>
      (match unitSuffix s with
       | some u => .numStr (lerpN p (parseFloat s) (parseFloat t)) u
       | Option.none => .num 0)
  | .str s, .num y =>
      -- `to === 0`: `Number.parseFloat(to.toString())` parses `"0"`
      if y = 0 then
        (match unitSuffix s with
         | some u => .numStr (lerpN p (parseFloat s) (parseFloat "0")) u
         | Option.none => .num 0)
      else .num 0
  | .num x, .str t =>
      -- `typeof to === "string" && from === 0`: `[from, Number.parseFloat(to)]`
      if x = 0 then
        (match unitSuffix t with
         | some u => .numStr (lerpN p (some x) (parseFloat t)) u
         | Option.none => .num 0)
      else .num 0
  | _, _ => .num 0

/-- `interpolation` of animations.tsx (lines 259-291): a color flag first
delegates to the external `interpolateColor`, the rest is the shared chain. -/
def interpolation (p : ℚ) (a b : JSVal) (isColor : Bool) : JSVal :=
  if isColor then .colorInterp p a b else interpolationCore p a b

/-- Default-parameter normalization of `interpolateWithUnits`
(`from: unknown = 0, to: unknown = 0`): `undefined` arguments become `0`. -/
def undefTo0 : JSVal → JSVal
  | .undef => .num 0
  | v => v

/-- `interpolateWithUnits` of animations_old.tsx (lines 229-262): the shared
chain, with `undefined` arguments replaced by `0` by the default parameters. -/
def interpolateWithUnits (p : ℚ) (a b : JSVal) : JSVal :=
  interpolationCore p (undefTo0 a) (undefTo0 b)

/-- `isColorProp` of animations.tsx (lines 247-257). -/
def isColorProp (prop : String) : Bool :=
  prop = "backgroundColor" ||
  prop = "borderBottomColor" ||
  prop = "borderLeftColor" ||
  prop = "borderRightColor" ||
  prop = "borderTopColor" ||
  prop = "color"

/-- Object lookup `m[k]`, with `d` (normally `JSVal.undef`) for a missing key. -/
def lookupD (m : List (String × JSVal)) (k : String) (d : JSVal) : JSVal :=
  match m.find? (fun kv => kv.1 = k) with
  | some kv => kv.2
  | Option.none => d

/-- Property assignment `m[k] = v`: update in place when the key exists,
append otherwise (JS insertion order). -/
def setKey (m : List (String × JSVal)) (k : String) (v : JSVal) : List (String × JSVal) :=
  if m.any (fun kv => kv.1 = k) then
    m.map (fun kv => if kv.1 = k then (k, v) else kv)
  else m ++ [(k, v)]

/-- `Object.assign(base, src)` for one source: copy the enumerable own
properties of `src` onto `base`.  Arrays and strings contribute their
index-keyed elements/characters; `undefined` and `null` sources are skipped;
numbers have no own enumerable properties. -/
def assignObj (base : List (String × JSVal)) (src : JSVal) : List (String × JSVal) :=
  match src with
  | .obj fields => fields.foldl (fun acc kv => setKey acc kv.1 kv.2) base
  | .arr elems => elems.enum.foldl (fun acc iv => setKey acc (toString iv.1) iv.2) base
  | .str s => s.data.enum.foldl
      (fun acc ic => setKey acc (toString ic.1) (.str (String.mk [ic.2]))) base
  | _ => base

/-- The sources produced by spreading a value in an argument list
(`...value`): arrays spread to their elements, strings to their characters;
spreading any other value throws a `TypeError` (`Option.none`).  (`numStr`
values are strings in JS but only arise as interpolation outputs and never
reach a spread in the modelled flows.) -/
def spreadSources : JSVal → Option (List JSVal)
  | .arr es => some es
  | .str s => some (s.data.map fun c => .str (String.mk [c]))
  | _ => Option.none

/-- The `?? []` nullish coalescing applied to a value that is about to be
spread: `undefined`/`null` become the empty array. -/
def nullishToEmptyArr : JSVal → JSVal
  | .undef => .arr []
  | .null => .arr []
  | v => v

/-- `defaultTransform` of animations.tsx (lines 298-311).  Note that every
numeric component, the scale components included, defaults to `0`, and the
axis rotations default to the string `"0deg"`. -/
def defaultTransform : List (String × JSVal) :=
  [("perspective", .num 0), ("translateX", .num 0), ("translateY", .num 0),
   ("scaleX", .num 0), ("scaleY", .num 0), ("rotate", .num 0),
   ("rotateX", .str "0deg"), ("rotateY", .str "0deg"), ("rotateZ", .str "0deg"),
   ("skewX", .num 0), ("skewY", .num 0), ("scale", .num 0)]

/-- `defaultTransform` of animations_old.tsx (lines 450-463): all components
default to the number `0`. -/
def defaultTransformOld : List (String × JSVal) :=
  [("perspective", .num 0), ("translateX", .num 0), ("translateY", .num 0),
   ("scaleX", .num 0), ("scaleY", .num 0), ("rotate", .num 0),
   ("rotateX", .num 0), ("rotateY", .num 0), ("rotateZ", .num 0),
   ("skewX", .num 0), ("skewY", .num 0), ("scale", .num 0)]

/-- Body of the `toStyles` entry loop of `useAnimated` (animations.tsx, lines
212-239):
`fromTransform = Object.assign({}, defaultTransform, ...(style.transform ?? []), fromValue)`
(note: `fromValue` is a single source, not spread, so an array `fromValue`
contributes index keys), then
`toTransform = Object.assign({}, ...toValue)` (spread: a non-iterable
`toValue` throws), and the result maps each key of `toTransform` — only of
`toTransform`; the default is never merged into the `to` endpoint — to the
interpolation of the two endpoint components. -/
def transformEntry (fp : ℚ) (styleTransformVal fromValue toValue : JSVal) :
    Option (List JSVal) :=
  match spreadSources (nullishToEmptyArr styleTransformVal) with
  | Option.none => Option.none
  | some styleSources =>
    let fromTransform := assignObj (styleSources.foldl assignObj defaultTransform) fromValue
    match spreadSources toValue with
    | Option.none => Option.none
    | some toSources =>
      let toTransform := toSources.foldl assignObj []
      let transformKeys := toTransform.map Prod.fst
      some (transformKeys.map fun k =>
        .obj [(k, interpolation fp (lookupD fromTransform k .undef)
                    (lookupD toTransform k .undef) (isColorProp k))])

/-- `Array.from(new Set(ks))`: deduplicate keeping first occurrences. -/
def dedupKeys (ks : List String) : List String :=
  ks.foldl (fun acc k => if acc.contains k then acc else acc ++ [k]) []

/-- The `key === "transform"` branch of `useAnimations`'s worklet
(animations_old.tsx, lines 301-339): both endpoints are flattened
(`Object.assign({}, ...endpoint)`), the key set is the union of both key
sets, and then `defaultTransform` is merged below the accumulated output
transform and the `from` endpoint, and below the `to` endpoint:
`fromTransform = Object.assign({}, defaultTransform, ...styleTransform, fromTransform)`,
`toTransform = Object.assign({}, defaultTransform, toTransform)`. -/
def transformEntryOld (fp : ℚ) (styleAccTransform fromValue toValue : JSVal) :
    Option (List JSVal) :=
  match spreadSources (nullishToEmptyArr fromValue) with
  | Option.none => Option.none
  | some fromSources =>
    let fromT0 := fromSources.foldl assignObj []
    match spreadSources toValue with
    | Option.none => Option.none
    | some toSources =>
      let toT0 := toSources.foldl assignObj []
      let transformKeys := dedupKeys (fromT0.map Prod.fst ++ toT0.map Prod.fst)
      match spreadSources (nullishToEmptyArr styleAccTransform) with
      | Option.none => Option.none
      | some styleSources =>
        let fromTransform :=
          assignObj (styleSources.foldl assignObj defaultTransformOld) (.obj fromT0)
        let toTransform := assignObj defaultTransformOld (.obj toT0)
        some (transformKeys.map fun k =>
          .obj [(k, interpolateWithUnits fp (lookupD fromTransform k .undef)
                      (lookupD toTransform k .undef))])

/-- A processed keyframe: only its `style` object is read by the worklet. -/
structure Frame where
  style : List (String × JSVal)

/-- `AnimationSchema` of animations.tsx (lines 74-76). -/
structure AnimationSchema where
  frames : List Frame

/-- `TransitionSchema` of animations.tsx (lines 78-81). -/
structure TransitionSchema where
  prop : String
  output : JSVal × JSVal

/-- `Schema` of animations.tsx (lines 69-72). -/
structure Schema where
  animations : List AnimationSchema
  transitions : List TransitionSchema

/-- JS `progress % 1`: remainder with the sign of the dividend
(`p - trunc p`). -/
def jsMod1 (p : ℚ) : ℚ :=
  if 0 ≤ p then p - ((Rat.floor p : ℤ) : ℚ) else p - ((Rat.ceil p : ℤ) : ℚ)

/-- `frames[i]?.style` for a possibly negative JS index. -/
def getFrameStyle (frames : List Frame) (i : ℤ) : Option (List (String × JSVal)) :=
  if 0 ≤ i then (frames.get? i.toNat).map Frame.style else Option.none

/-- The transitions loop of the `useAnimated` worklet (animations.tsx, lines
180-187): iterate over the transition progress cells; a missing schema entry
(`transitions[index] || {}` with falsy `output`) continues; otherwise
`result[prop] = interpolation(progress, ...output, isColorProp(prop))`. -/
def runTransitions (result : List (String × JSVal)) (trans : List TransitionSchema)
    (progs : List ℚ) : List (String × JSVal) :=
  match progs, trans with
  | [], _ => result
  | _ :: ps, [] => runTransitions result [] ps
  | p :: ps, t :: ts =>
      runTransitions
        (setKey result t.prop (interpolation p t.output.1 t.output.2 (isColorProp t.prop)))
        ts ps

/-- The `toStyles` entry loop of the worklet (animations.tsx, lines 212-239):
each entry overwrites `result.transform`; a `TypeError` aborts the worklet. -/
def entriesLoop (fp : ℚ) (styleTransformVal : JSVal)
    (fromStyles : List (String × JSVal)) (entries : List (String × JSVal))
    (result : List (String × JSVal)) : Option (List (String × JSVal)) :=
  match entries with
  | [] => some result
  | (key, toValue) :: rest =>
      match transformEntry fp styleTransformVal (lookupD fromStyles key .undef) toValue with
      | some t => entriesLoop fp styleTransformVal fromStyles rest
          (setKey result "transform" (.arr t))
      | Option.none => Option.none

/-- `const { frames = [{ style: {} }] } = animations[index] || {}`: the
frames of the current animation slot, defaulting to a single empty-style
frame when the schema has no slot at this index. -/
def slotFrames : List AnimationSchema → List Frame
  | [] => [Frame.mk []]
  | a :: _ => a.frames

/-- The animations loop of the `useAnimated` worklet (animations.tsx, lines
189-240): iterate over the animation progress cells; a missing schema slot
defaults its frames to `[{style: {}}]`; a progress of exactly `0` returns the
first frame's style (a `TypeError` when the frames list is empty); a progress
of exactly `frames.length - 1` returns the last frame's style; otherwise the
adjacent frames are interpolated per entry (`continue` when either side is
missing). -/
def animLoop (style : List (String × JSVal)) (anims : List AnimationSchema)
    (progs : List ℚ) (result : List (String × JSVal)) :
    Option (List (String × JSVal)) :=
  match progs with
  | [] => some result
  | p :: ps =>
    if p = 0 then (slotFrames anims).head?.map Frame.style
    else if p = ((slotFrames anims).length : ℚ) - 1 then
      ((slotFrames anims).get? ((slotFrames anims).length - 1)).map Frame.style
    else
      match getFrameStyle (slotFrames anims) (Rat.floor p),
            getFrameStyle (slotFrames anims) (Rat.ceil p) with
      | some fs, some ts =>
          match entriesLoop (jsMod1 p) (lookupD style "transform" .undef) fs ts result with
          | some result2 => animLoop style (anims.drop 1) ps result2
          | Option.none => Option.none
      | _, _ => animLoop style (anims.drop 1) ps result

/-- `result.fontWeight = result.fontWeight?.toString()`: optional chaining
maps `undefined`/`null` to `undefined`; a number is formatted as a string
(kept symbolic as `numStr q ""`); a string is returned unchanged.  Arrays and
objects never occur as `fontWeight` in the modelled flows, so their
`toString` is not modelled. -/
def fontWeightToString : JSVal → JSVal
  | .undef => .undef
  | .null => .undef
  | .num q => .numStr (some q) ""
  | v => v

/-- The whole `useAnimatedStyle` worklet of `useAnimated` (animations.tsx,
lines 172-243): copy the base style, coerce `fontWeight` to a string, apply
the transitions, then run the animations loop with its early returns. -/
def useAnimatedWorklet (style : List (String × JSVal)) (schema : Schema)
    (transProgs animProgs : List ℚ) : Option (List (String × JSVal)) :=
  let result := style
  let result := setKey result "fontWeight" (fontWeightToString (lookupD result "fontWeight" .undef))
  let result := runTransitions result schema.transitions transProgs
  animLoop style schema.animations animProgs result

/-- A command written to a shared progress cell from the UI-update context:
either a direct value assignment or a `withTiming(target, {duration})`. -/
inductive Cmd where
  | set (v : ℚ)
  | timing (target duration : ℚ)

/-- A CSS `<time>` value from lightningcss. -/
inductive Time where
  | seconds (value : ℚ)
  | milliseconds (value : ℚ)

/-- The `.value` accessor of a `Time` record (the raw number, whatever the
unit). -/
def Time.value : Time → ℚ
  | .seconds v => v
  | .milliseconds v => v

/-- The transition metadata destructured by `useSchema` (animations.tsx, line
94-96): only `property` is read; `duration` is present in the metadata but
never destructured or read by `useSchema`. -/
structure TransitionMeta where
  property : List String
  duration : List Time

/-- Body of the transitions loop of `useSchema` (animations.tsx, lines
131-151) for one index: with no previous output pair, a defined non-null
style value initializes the pair to `[value, value]` with no progress
commands; with a previous pair, the pair is shifted to
`[previous[1], value]`, the progress cell is set to `0` and then animated to
`1` with the hard-coded duration `1000` (the metadata's durations are never
read). -/
def useSchemaTransitionStep (previous : Option (JSVal × JSVal)) (prop : String)
    (value : JSVal) : Option TransitionSchema × List Cmd :=
  match previous with
  | Option.none =>
      match value with
      | .undef => (Option.none, [])
      | .null => (Option.none, [])
      | v => (some ⟨prop, (v, v)⟩, [])
  | some pr => (some ⟨prop, (pr.2, value)⟩, [Cmd.set 0, Cmd.timing 1 1000])

/-- The transitions loop of `useSchema`, folded over the property list with
its running index; returns the new transition schemas and, per index, the
progress commands issued. -/
def useSchemaTransitionsGo (props : List String) (index : ℕ)
    (prev : List TransitionSchema) (style : List (String × JSVal)) :
    List TransitionSchema × List (List Cmd) :=
  match props with
  | [] => ([], [])
  | prop :: rest =>
      let value := lookupD style prop .undef
      let previous := ((prev.get? index).map TransitionSchema.output)
      let step := useSchemaTransitionStep previous prop value
      let tail := useSchemaTransitionsGo rest (index + 1) prev style
      (match step.1 with
       | some s => s :: tail.1
       | Option.none => tail.1,
       step.2 :: tail.2)

/-- The transitions part of `useSchema` (animations.tsx, lines 94-151): the
loop runs over `meta.property`; `meta.duration` is never read. -/
def useSchemaTransitionsLoop (meta : TransitionMeta) (prev : List TransitionSchema)
    (style : List (String × JSVal)) : List TransitionSchema × List (List Cmd) :=
  useSchemaTransitionsGo meta.property 0 prev style

/-- Body of the loop of `useTransitions` (animations_old.tsx, lines 390-414)
for one index: `duration = getValue(durations, index, ...).value` (reading
`.value` of `durations[index % durations.length]`; an empty list makes this
a `TypeError`, `Option.none`); with an undefined previous output, a defined
(possibly null) value initializes the pair; with a previous pair, the pair is
shifted, the progress cell is set to `0` and animated to `1` over the
configured duration. -/
def useTransitionsStep (durations : List Time) (index : ℕ)
    (outputPrev : Option (JSVal × JSVal)) (value : JSVal) :
    Option (Option (JSVal × JSVal) × List Cmd) :=
  match durations.get? (index % durations.length) with
  | Option.none => Option.none
  | some t =>
      some (match outputPrev with
        | Option.none =>
            match value with
            | .undef => (Option.none, [])
            | v => (some (v, v), [])
        | some pr => (some (pr.2, value), [Cmd.set 0, Cmd.timing 1 t.value]))

/-- `ExtractedAnimation` as used here: a list of keyframes. -/
structure ExtractedAnimation where
  frames : List Frame

/-- `defaultAnimation` (animations.tsx, line 297; animations_old.tsx, line
25): the empty-frames fallback animation. -/
def defaultAnimation : ExtractedAnimation := ⟨[]⟩

/-- A lightningcss animation-name entry: `{type: "none"}` or a named value. -/
inductive AnimationName where
  | noneType
  | value (v : String)

/-- Keyframe resolution of `useSchema` (animations.tsx, lines 108-113): a
`"none"` name uses `defaultAnimation`; otherwise
`animationMap.get(name.value) || defaultAnimation`. -/
def resolveAnimation (animationMap : String → Option ExtractedAnimation) :
    AnimationName → ExtractedAnimation
  | .noneType => defaultAnimation
  | .value v => (animationMap v).getD defaultAnimation

/-- The lightningcss `EasingFunction` union (closed type). -/
inductive EasingFunction where
  | linear
  | ease
  | easeIn
  | easeOut
  | easeInOut
  | cubicBezier (x1 y1 x2 y2 : ℚ)
  | steps (count : ℤ)

/-- The reanimated easing values produced by `timingToEasing`; only
`Easing.linear` is ever returned by the source (the bezier conversion is
commented out). -/
inductive Easing where
  | linear

/-- `timingToEasing` of animations_old.tsx (lines 465-487): the named timing
functions and `cubic-bezier` all map to `Easing.linear` (the faithful
`Easing.bezier(...)` conversion is commented out in the source); `steps`
throws `"Not supported"`.  The `default` branch (`"Unknown timing function"`)
is unreachable: the TS union is closed, as is this inductive. -/
def timingToEasing : EasingFunction → Except String Easing
  | .linear => .ok .linear
  | .ease => .ok .linear
  | .easeIn => .ok .linear
  | .easeOut => .ok .linear
  | .easeInOut => .ok .linear
  | .cubicBezier _ _ _ _ => .ok .linear
  | .steps _ => .error "Not supported"

/-- `numericTransitions` of animations_old.tsx (lines 489-535). -/
def numericTransitions : List String :=
  ["borderBottomLeftRadius", "borderBottomRightRadius", "borderBottomWidth",
   "borderLeftWidth", "borderRadius", "borderRightWidth", "borderTopWidth",
   "borderWidth", "bottom", "flex", "flexBasis", "flexGrow", "flexShrink",
   "fontSize", "fontWeight", "gap", "height", "left", "letterSpacing",
   "lineHeight", "margin", "marginBottom", "marginLeft", "marginRight",
   "marginTop", "maxHeight", "maxWidth", "minHeight", "minWidth",
   "objectPosition", "opacity", "padding", "paddingBottom", "paddingLeft",
   "paddingRight", "paddingTop", "right", "textDecoration", "top",
   "transformOrigin", "verticalAlign", "visibility", "width", "wordSpacing",
   "zIndex"]

/-- `colorTransitions` of animations_old.tsx (lines 537-544). -/
def colorTransitions : List String :=
  ["backgroundColor", "borderBottomColor", "borderLeftColor",
   "borderRightColor", "borderTopColor", "color"]

/-- The per-property typing of `useTransitions` (animations_old.tsx, lines
365-376): `"numeric"`, `"color"`, or undefined. -/
def classifyTransition (p : String) : Option String :=
  if numericTransitions.contains p then some "numeric"
  else if colorTransitions.contains p then some "color"
  else Option.none

/-- `animatedTyped` (animations_old.tsx, lines 365-376): computed from the
properties of the FIRST render (`useState` initializer) and stable
afterwards. -/
def animatedTyped (firstProperties : List String) : List (String × Option String) :=
  firstProperties.map fun p => (p, classifyTransition p)

/-- The `__DEV__` check of `useTransitions` (animations_old.tsx, lines
378-384): in development builds, a current property count different from
`animatedTyped.length` (the first render's count) throws immediately. -/
def transitionsDevCheck (dev : Bool) (firstProperties properties : List String) :
    Except String Unit :=
  if dev then
    if properties.length ≠ (animatedTyped firstProperties).length then
      Except.error "Number of transition properties must match between renders"
    else Except.ok ()
  else Except.ok ()

/-- The input shapes claim C10 describes as handled by the interpolation
helper (this definition follows the claim's words, to be compared with the
source-derived `interpolation`): a color-flagged pair, two numbers, or a
unit-suffixed string paired with a string or with the number `0` (in either
order for the `0` case; for two strings only the `from` string's trailing
unit counts). -/
def handledShapeB (a b : JSVal) : Bool :=
  match a, b with
  | .num _, .num _ => true
  | .str s, .str _ => (unitSuffix s).isSome
  | .str s, .num y => (unitSuffix s).isSome && y = 0
  | .num x, .str t => (unitSuffix t).isSome && x = 0
  | _, _ => false

/-!  Theorems settling the claims. -/

/-- C1: for numeric endpoints with the color flag false, the interpolation
helper (both `interpolation` of animations.tsx and `interpolateWithUnits` of
animations_old.tsx) returns the linear interpolation `from + p * (to - from)`;
in particular at `p = 0` it returns `from` and at `p = 1` it returns `to`. -/
theorem C1_numeric_linear (p x y : ℚ) :
    interpolation p (.num x) (.num y) false = .num (x + p * (y - x)) ∧
    interpolateWithUnits p (.num x) (.num y) = .num (x + p * (y - x)) ∧
    interpolation 0 (.num x) (.num y) false = .num x ∧
    interpolation 1 (.num x) (.num y) false = .num y := by
  refine ⟨rfl, rfl, ?_, ?_⟩
  · show JSVal.num (lerp 0 x y) = JSVal.num x
    simp [lerp]
  · show JSVal.num (lerp 1 x y) = JSVal.num y
    simp [lerp]

/-- C2: whenever the `from` string ends in a unit suffix, the helper (both
files) pairs it with ANY string `to`: it parses the numeric portions of both
endpoints (`NaN`, i.e. `Option.none`, propagating through the interpolation
when a portion does not parse), linearly interpolates them, and returns the
interpolated number with `from`'s unit reattached — in particular, when both
portions parse the result is exactly the lerp of the two parsed numbers with
the unit; the same holds when the `from` string is paired with the number `0`
(whose string form `"0"` parses to `0`), and when the number `0` is paired
with a unit-suffixed `to` string (then `to`'s unit is reattached). -/
theorem C2_unit_string (p : ℚ) (s t r u ur : String)
    (hsu : unitSuffix s = some u) (hru : unitSuffix r = some ur) :
    interpolation p (.str s) (.str t) false =
      .numStr (lerpN p (parseFloat s) (parseFloat t)) u ∧
    interpolateWithUnits p (.str s) (.str t) =
      .numStr (lerpN p (parseFloat s) (parseFloat t)) u ∧
    (∀ qf qt : ℚ, parseFloat s = some qf → parseFloat t = some qt →
      interpolation p (.str s) (.str t) false = .numStr (some (lerp p qf qt)) u) ∧
    interpolation p (.str s) (.num 0) false =
      .numStr (lerpN p (parseFloat s) (parseFloat "0")) u ∧
    interpolation p (.num 0) (.str r) false =
      .numStr (lerpN p (some 0) (parseFloat r)) ur := by
  refine ⟨?_, ?_, ?_, ?_, ?_⟩
  · simp [interpolation, interpolationCore, hsu]
  · simp [interpolateWithUnits, undefTo0, interpolationCore, hsu]
  · intro qf qt hqf hqt
    simp [interpolation, interpolationCore, hsu, hqf, hqt, lerpN]
  · simp [interpolation, interpolationCore, hsu]
  · simp [interpolation, interpolationCore, hru]

/-- Witness for C2 at concrete inputs, including a `to` string with no
trailing unit (`"20"`): `"10px"` towards `"20"` at progress `1/2` yields the
interpolated number `15` with `"px"` reattached. -/
theorem C2_unit_string_witness :
    interpolation (1/2) (.str "10px") (.str "20") false =
      .numStr (lerpN (1/2) (parseFloat "10px") (parseFloat "20")) "px" ∧
    interpolateWithUnits (1/2) (.str "10px") (.str "20") =
      .numStr (lerpN (1/2) (parseFloat "10px") (parseFloat "20")) "px" ∧
    interpolation (1/2) (.str "10px") (.str "20") false =
      .numStr (some (lerp (1/2) 10 20)) "px" ∧
    interpolation (1/2) (.str "10px") (.num 0) false =
      .numStr (lerpN (1/2) (parseFloat "10px") (parseFloat "0")) "px" ∧
    interpolation (1/2) (.num 0) (.str "20em") false =
      .numStr (lerpN (1/2) (some 0) (parseFloat "20em")) "em" :=
  ⟨(C2_unit_string (1/2) "10px" "20" "20em" "px" "em"
      (by with_unfolding_all rfl) (by with_unfolding_all rfl)).1,
   (C2_unit_string (1/2) "10px" "20" "20em" "px" "em"
      (by with_unfolding_all rfl) (by with_unfolding_all rfl)).2.1,
   (C2_unit_string (1/2) "10px" "20" "20em" "px" "em"
      (by with_unfolding_all rfl) (by with_unfolding_all rfl)).2.2.1 10 20
      (by with_unfolding_all rfl) (by with_unfolding_all rfl),
   (C2_unit_string (1/2) "10px" "20" "20em" "px" "em"
      (by with_unfolding_all rfl) (by with_unfolding_all rfl)).2.2.2.1,
   (C2_unit_string (1/2) "10px" "20" "20em" "px" "em"
      (by with_unfolding_all rfl) (by with_unfolding_all rfl)).2.2.2.2⟩

/-- C10: with the color flag false, every input pair matching none of the
handled shapes — two numbers, a unit-suffixed `from` string paired with a
string or with the number `0`, the number `0` paired with a unit-suffixed
`to` string (two strings with a unit-less `from` included) — makes
`interpolation` return the number `0`; `interpolateWithUnits` behaves the
same after its default parameters have replaced `undefined` endpoints by
`0`. -/
theorem C10_unhandled_returns_zero (p : ℚ) (a b : JSVal)
    (h : handledShapeB a b = false) :
    interpolation p a b false = .num 0 ∧
    (handledShapeB (undefTo0 a) (undefTo0 b) = false →
      interpolateWithUnits p a b = .num 0) := by
  have core : ∀ x y : JSVal, handledShapeB x y = false →
      interpolationCore p x y = .num 0 := by
    intro x y hxy
    cases x <;> cases y <;> try rfl
    case num.num a b => simp [handledShapeB] at hxy
    case str.str s t =>
      have hs : unitSuffix s = Option.none := by
        simpa [handledShapeB, Option.isSome_iff_exists] using hxy
      simp [interpolationCore, hs]
    case str.num s y =>
      by_cases hy : y = 0
      · subst hy
        have hs : unitSuffix s = Option.none := by
          simpa [handledShapeB, Option.isSome_iff_exists] using hxy
        simp [interpolationCore, hs]
      · simp [interpolationCore, hy]
    case num.str x t =>
      by_cases hx : x = 0
      · subst hx
        have ht : unitSuffix t = Option.none := by
          simpa [handledShapeB, Option.isSome_iff_exists] using hxy
        simp [interpolationCore, ht]
      · simp [interpolationCore, hx]
  exact ⟨by simp [interpolation, core a b h],
    fun h2 => by simp [interpolateWithUnits, core _ _ h2]⟩

/-- Witness for C10 at concrete inputs. -/
theorem C10_unhandled_returns_zero_witness :
    interpolation (1/3) .undef .undef false = .num 0 ∧
    interpolateWithUnits (1/3) .null .null = .num 0 :=
  ⟨(C10_unhandled_returns_zero (1/3) .undef .undef (by decide)).1,
   (C10_unhandled_returns_zero (1/3) .null .null (by decide)).2 (by decide)⟩

/-- Counterexample for C4: `useSchema` (animations.tsx) does shift the pair
and reset the progress, but it restarts the driver with the hard-coded
duration `1000`, ignoring the transition metadata — here the metadata
configures `250` milliseconds for the property, yet the issued command is
`withTiming(1, {duration: 1000})`. -/
theorem C4_counterexample :
    useSchemaTransitionsLoop ⟨["width"], [Time.milliseconds 250]⟩
        [⟨"width", (.num 1, .num 2)⟩] [("width", .num 3)] =
      ([⟨"width", (.num 2, .num 3)⟩], [[Cmd.set 0, Cmd.timing 1 1000]]) ∧
    Time.value (Time.milliseconds 250) ≠ (1000 : ℚ) := by
  refine ⟨by with_unfolding_all rfl, by norm_num [Time.value]⟩

/-- C4 amended: on a render with an existing tracked pair, both
implementations replace the pair by (previous second element, current value)
and reset the progress cell to `0` before driving it to `1`; but only the
older `useTransitions` uses the duration configured for the property in the
transition metadata (cyclically indexed), while the current `useSchema`
hard-codes a 1000 ms duration. -/
theorem C4_transition_shift_amended (prop : String) (a b v : JSVal)
    (durations : List Time) (index : ℕ) (t : Time)
    (hd : durations.get? (index % durations.length) = some t) :
    useSchemaTransitionStep (some (a, b)) prop v =
      (some ⟨prop, (b, v)⟩, [Cmd.set 0, Cmd.timing 1 1000]) ∧
    useTransitionsStep durations index (some (a, b)) v =
      some (some (b, v), [Cmd.set 0, Cmd.timing 1 t.value]) := by
  refine ⟨rfl, ?_⟩
  have hbody : useTransitionsStep durations index (some (a, b)) v =
      match durations.get? (index % durations.length) with
      | Option.none => Option.none
      | some t => some (some (b, v), [Cmd.set 0, Cmd.timing 1 t.value]) := rfl
  rw [hbody, hd]

/-- Witness for C4's amended theorem at concrete inputs. -/
theorem C4_transition_shift_amended_witness :
    useSchemaTransitionStep (some (.num 1, .num 2)) "width" (.num 3) =
      (some ⟨"width", (.num 2, .num 3)⟩, [Cmd.set 0, Cmd.timing 1 1000]) ∧
    useTransitionsStep [Time.milliseconds 250] 0 (some (.num 1, .num 2)) (.num 3) =
      some (some (.num 2, .num 3),
        [Cmd.set 0, Cmd.timing 1 (Time.milliseconds 250).value]) :=
  C4_transition_shift_amended "width" (.num 1) (.num 2) (.num 3)
    [Time.milliseconds 250] 0 (Time.milliseconds 250) rfl

/-- Counterexample for C5: the pair does initialize to `(v, v)`, but the
interpolated output does not equal `v` for every defined non-null `v`: for
the string `"ABC"` (no trailing lowercase/percent unit) the helper returns
the number `0`, not `"ABC"`. -/
theorem C5_counterexample :
    useSchemaTransitionStep Option.none "width" (.str "ABC") =
      (some ⟨"width", (.str "ABC", .str "ABC")⟩, []) ∧
    interpolation (1/2) (.str "ABC") (.str "ABC") (isColorProp "width") = .num 0 ∧
    JSVal.num 0 ≠ JSVal.str "ABC" := by
  refine ⟨rfl, by with_unfolding_all rfl, fun h => JSVal.noConfusion h⟩

/-- C5 amended: for EVERY transitioned property whose first observed style
value is defined and non-null, the tracker initializes the pair to `(v, v)`
with no progress command; for non-color properties the interpolated output
between the equal endpoints is constant in the progress, and it equals `v`
whenever `v` is a number (for other value shapes the constant may differ from
`v`, e.g. `0` for a string without a trailing unit; color properties delegate
to the external `interpolateColor`, whose behaviour is outside this model). -/
theorem C5_initial_hold_amended (prop : String) (v : JSVal)
    (hdef : v ≠ JSVal.undef) (hnull : v ≠ JSVal.null) :
    useSchemaTransitionStep Option.none prop v = (some ⟨prop, (v, v)⟩, []) ∧
    (isColorProp prop = false → ∀ p q : ℚ,
      interpolation p v v (isColorProp prop) = interpolation q v v (isColorProp prop)) ∧
    (isColorProp prop = false → ∀ x : ℚ, v = .num x →
      ∀ p : ℚ, interpolation p v v (isColorProp prop) = .num x) := by
  refine ⟨?_, ?_, ?_⟩
  · cases v <;> simp_all [useSchemaTransitionStep]
  · intro hcolor p q
    rw [hcolor]
    show interpolationCore p v v = interpolationCore q v v
    cases v <;> try rfl
    case num x => simp [interpolationCore, lerp]
    case str s =>
      cases hu : unitSuffix s
      · simp [interpolationCore, hu]
      · cases hp : parseFloat s
        · simp [interpolationCore, hu, hp, lerpN]
        · simp [interpolationCore, hu, hp, lerpN, lerp]
  · rintro hcolor x rfl p
    rw [hcolor]
    show JSVal.num (lerp p x x) = JSVal.num x
    simp [lerp]

/-- Witness for C5's amended theorem at concrete inputs: the initialization
for the non-color property `"width"` with a numeric value and for the color
property `"color"` with a string value, plus constancy and value-preservation
for the numeric case. -/
theorem C5_initial_hold_amended_witness :
    useSchemaTransitionStep Option.none "width" (.num 5) =
      (some ⟨"width", (.num 5, .num 5)⟩, []) ∧
    useSchemaTransitionStep Option.none "color" (.str "red") =
      (some ⟨"color", (.str "red", .str "red")⟩, []) ∧
    interpolation (1/3) (.num 5) (.num 5) (isColorProp "width") =
      interpolation (2/3) (.num 5) (.num 5) (isColorProp "width") ∧
    interpolation (1/3) (.num 5) (.num 5) (isColorProp "width") = .num 5 :=
  ⟨(C5_initial_hold_amended "width" (.num 5)
      (fun h => JSVal.noConfusion h) (fun h => JSVal.noConfusion h)).1,
   (C5_initial_hold_amended "color" (.str "red")
      (fun h => JSVal.noConfusion h) (fun h => JSVal.noConfusion h)).1,
   (C5_initial_hold_amended "width" (.num 5)
      (fun h => JSVal.noConfusion h) (fun h => JSVal.noConfusion h)).2.1 rfl (1/3) (2/3),
   (C5_initial_hold_amended "width" (.num 5)
      (fun h => JSVal.noConfusion h) (fun h => JSVal.noConfusion h)).2.2 rfl 5 rfl (1/3)⟩

/-- C6: a missing animation name (absent from the animation map, or an entry
of type `"none"`) resolves to the default animation, whose frames list is
empty — no failure and no undefined frames. -/
theorem C6_missing_animation_fallback (animMap : String → Option ExtractedAnimation)
    (name : AnimationName)
    (h : name = AnimationName.noneType ∨
         ∃ v, name = AnimationName.value v ∧ animMap v = Option.none) :
    resolveAnimation animMap name = defaultAnimation ∧
    (resolveAnimation animMap name).frames = [] := by
  rcases h with rfl | ⟨v, rfl, hv⟩
  · exact ⟨rfl, rfl⟩
  · refine ⟨by simp [resolveAnimation, hv], by simp [resolveAnimation, hv, defaultAnimation]⟩

/-- Witness for C6 at concrete inputs. -/
theorem C6_missing_animation_fallback_witness :
    resolveAnimation (fun _ => Option.none) (AnimationName.value "spin") = defaultAnimation ∧
    (resolveAnimation (fun _ => Option.none) (AnimationName.value "spin")).frames = [] :=
  C6_missing_animation_fallback (fun _ => Option.none) (AnimationName.value "spin")
    (Or.inr ⟨"spin", rfl, rfl⟩)

/-- Counterexample for C7: `cubic-bezier` is a timing-function type the
engine does not implement (its bezier conversion is commented out), yet
`timingToEasing` silently substitutes the degraded linear easing instead of
raising an error. -/
theorem C7_counterexample :
    timingToEasing (EasingFunction.cubicBezier (1/4) (1/10) (1/4) 1) =
      Except.ok Easing.linear := rfl

/-- C7 amended: only `steps` timing functions raise an error
(`"Not supported"`); every other timing-function value — the `ease` variants
and `cubic-bezier` included — is silently converted to the linear easing.
(The source's `default` branch, `"Unknown timing function"`, is unreachable:
the lightningcss union is closed.) -/
theorem C7_steps_error_amended (tf : EasingFunction)
    (h : ∀ n : ℤ, tf ≠ EasingFunction.steps n) :
    timingToEasing tf = Except.ok Easing.linear ∧
    (∀ n : ℤ, timingToEasing (EasingFunction.steps n) = Except.error "Not supported") := by
  refine ⟨?_, fun n => rfl⟩
  cases tf <;> first | rfl | exact absurd rfl (h _)

/-- Witness for C7's amended theorem at concrete inputs. -/
theorem C7_steps_error_amended_witness :
    timingToEasing EasingFunction.ease = Except.ok Easing.linear ∧
    timingToEasing (EasingFunction.steps 4) = Except.error "Not supported" :=
  ⟨(C7_steps_error_amended EasingFunction.ease
      (fun _ h => EasingFunction.noConfusion h)).1,
   (C7_steps_error_amended EasingFunction.ease
      (fun _ h => EasingFunction.noConfusion h)).2 4⟩

/-- C8: in development builds (`__DEV__`), a render whose transition property
count differs from the count captured on the first render throws
immediately. -/
theorem C8_dev_mismatch_throws (firstProps props : List String)
    (h : props.length ≠ firstProps.length) :
    transitionsDevCheck true firstProps props =
      Except.error "Number of transition properties must match between renders" := by
  have hlen : (animatedTyped firstProps).length = firstProps.length :=
    List.length_map _ _
  simp [transitionsDevCheck, hlen, h]

/-- Witness for C8 at concrete inputs. -/
theorem C8_dev_mismatch_throws_witness :
    transitionsDevCheck true ["opacity"] [] =
      Except.error "Number of transition properties must match between renders" :=
  C8_dev_mismatch_throws ["opacity"] [] (by decide)

/-- Counterexample for C3: the default transform is not an identity
transform — it maps `scale` to `0`, not `1` (both files), so a `from`
endpoint missing `scale` interpolates towards `scale: 2` from `0`: at
mid-progress the code yields `scale: 1`, where interpolating from the
identity `1` would yield `3/2`.  The computed output also shows that the
current file's `to` endpoint is not normalized: only the single key of the
`to` endpoint is emitted. -/
theorem C3_counterexample :
    transformEntry (1/2) .undef .undef (.arr [.obj [("scale", .num 2)]]) =
      some [.obj [("scale", .num 1)]] ∧
    lookupD defaultTransform "scale" .undef = .num 0 ∧
    lookupD defaultTransform "scale" .undef ≠ .num 1 ∧
    lookupD defaultTransformOld "scale" .undef ≠ .num 1 := by
  refine ⟨by with_unfolding_all rfl, by with_unfolding_all rfl, ?_, ?_⟩
  · intro h
    rw [show lookupD defaultTransform "scale" .undef = JSVal.num 0 from by
      with_unfolding_all rfl] at h
    exact absurd (JSVal.num.inj h) (by norm_num)
  · intro h
    rw [show lookupD defaultTransformOld "scale" .undef = JSVal.num 0 from by
      with_unfolding_all rfl] at h
    exact absurd (JSVal.num.inj h) (by norm_num)

/-- C3 amended: before per-component interpolation, missing transform
components are filled in from a default transform whose entries are all the
number `0` — `scale`, `scaleX`, `scaleY` included, so it is not an identity
transform — except `rotateX`/`rotateY`/`rotateZ`, which are `"0deg"` in the
current file (and `0` in the old file).  The current implementation
(`useAnimated`) merges this default only into the `from` endpoint and
iterates over the `to` endpoint's own keys; the older implementation merges
the default into both endpoints and iterates over the union of the key sets.
Stated here for an absent `from` keyframe value and no base-style transform,
where the `from` side reduces exactly to the default transform. -/
theorem C3_default_normalization_amended (fp : ℚ) (toRecs : List JSVal) :
    transformEntry fp .undef .undef (.arr toRecs) =
      some (((toRecs.foldl assignObj []).map Prod.fst).map fun k =>
        .obj [(k, interpolation fp (lookupD defaultTransform k .undef)
                    (lookupD (toRecs.foldl assignObj []) k .undef) (isColorProp k))]) ∧
    transformEntryOld fp .undef .undef (.arr toRecs) =
      some ((dedupKeys ((toRecs.foldl assignObj []).map Prod.fst)).map fun k =>
        .obj [(k, interpolateWithUnits fp (lookupD defaultTransformOld k .undef)
                    (lookupD (assignObj defaultTransformOld (.obj (toRecs.foldl assignObj [])))
                      k .undef))]) ∧
    lookupD defaultTransform "rotateX" .undef = .str "0deg" ∧
    lookupD defaultTransform "scale" .undef = .num 0 := by
  refine ⟨rfl, rfl, by with_unfolding_all rfl, by with_unfolding_all rfl⟩

/-- Counterexample for C9: the early return belongs to the EARLIEST animation
slot whose progress sits exactly on a frame index, not to "any" slot.  Here
slot 0 has two frames and progress `1` (its last frame index) while slot 1
has a non-empty frames list and progress `0`; the computation returns slot
0's last frame style, not slot 1's first frame style as the claim would
require for slot 1. -/
theorem C9_counterexample :
    useAnimatedWorklet []
        ⟨[⟨[⟨[("opacity", .num 0)]⟩, ⟨[("opacity", .num 1)]⟩]⟩,
          ⟨[⟨[("opacity", .num (1/2))]⟩]⟩], []⟩ [] [1, 0] =
      some [("opacity", .num 1)] ∧
    some [("opacity", JSVal.num 1)] ≠ some [("opacity", JSVal.num (1/2))] := by
  constructor
  · with_unfolding_all rfl
  · intro h
    have h1 := Option.some.inj h
    have h2 := (List.cons.inj h1).1
    have h3 := (Prod.mk.injEq _ _ _ _).mp h2
    exact absurd (JSVal.num.inj h3.2) (by norm_num)

/-- C9 amended: when the FIRST animation slot's progress is exactly `0` and
its frames list is non-empty, the per-frame computation returns exactly that
slot's first frame style — discarding every base style property, every
transition result computed earlier in the same invocation, and the
`fontWeight` string coercion (the base style, transition schemas and
transition progresses are universally quantified here); symmetrically, when
the first slot's progress equals its last frame index it returns exactly the
last frame's style. -/
theorem C9_early_return_amended (style : List (String × JSVal))
    (trans : List TransitionSchema) (restAnims : List AnimationSchema)
    (transProgs restProgs : List ℚ) (frames : List Frame) (f g : Frame)
    (hhead : frames.head? = some f)
    (hlast : frames.get? (frames.length - 1) = some g) :
    useAnimatedWorklet style ⟨⟨frames⟩ :: restAnims, trans⟩ transProgs
        (0 :: restProgs) = some f.style ∧
    useAnimatedWorklet style ⟨⟨frames⟩ :: restAnims, trans⟩ transProgs
        (((frames.length : ℚ) - 1) :: restProgs) = some g.style := by
  rcases frames with _ | ⟨f0, rest⟩
  · exact absurd hhead (by simp)
  · have hf : f0 = f := by simpa using hhead
    subst hf
    constructor
    · simp only [useAnimatedWorklet, animLoop, slotFrames]
      simp
    · rcases rest with _ | ⟨f1, rest'⟩
      · have hg : f0 = g := by simpa using hlast
        subst hg
        norm_num [useAnimatedWorklet, animLoop, slotFrames]
      · have hp0 : (((f0 :: f1 :: rest').length : ℚ) - 1) ≠ 0 := by
          have h1 : (0:ℚ) ≤ (rest'.length : ℚ) := Nat.cast_nonneg _
          simp only [List.length_cons]
          push_cast
          intro hc
          linarith
        simp only [useAnimatedWorklet, animLoop, slotFrames]
        rw [if_neg hp0]
        have hl2 : (f1 :: rest')[rest'.length]? = some g := by simpa using hlast
        have hlt : rest'.length < (f1 :: rest').length := by simp
        have hg : (f1 :: rest')[rest'.length] = g := by
          rw [List.getElem?_eq_getElem hlt] at hl2
          exact Option.some.inj hl2
        simp [hg]

/-- Witness for C9's amended theorem at concrete inputs. -/
theorem C9_early_return_amended_witness :
    useAnimatedWorklet [("width", .num 7)]
        ⟨[⟨[⟨[("opacity", .num 0)]⟩, ⟨[("opacity", .num 1)]⟩]⟩], []⟩ [] (0 :: []) =
      some [("opacity", .num 0)] ∧
    useAnimatedWorklet [("width", .num 7)]
        ⟨[⟨[⟨[("opacity", .num 0)]⟩, ⟨[("opacity", .num 1)]⟩]⟩], []⟩ []
        ((((([⟨[("opacity", JSVal.num 0)]⟩, ⟨[("opacity", JSVal.num 1)]⟩] : List Frame).length) : ℚ) - 1) :: []) =
      some [("opacity", .num 1)] :=
  C9_early_return_amended [("width", .num 7)] [] [] [] []
    [⟨[("opacity", .num 0)]⟩, ⟨[("opacity", .num 1)]⟩]
    ⟨[("opacity", .num 0)]⟩ ⟨[("opacity", .num 1)]⟩ rfl rfl

end ExpoStyling
